import Mathlib

/-!
Verification development for the `recommendation` dashboard (`src/app.py`).

The file shallowly embeds the data-access layer, the form-submission logic of
`dashboard`, and the recommender (`get_similarity_matrix`, `get_recommendations`)
of `app.py`, and proves or refutes the specification claims about them.

Conventions used in the embedding:
* SQLite tables are lists of typed rows; an `INSERT` is modelled by appending a
  row, guarded by the check SQLite itself performs, namely that every column
  named by the statement exists in the table's schema.
* Python exceptions are modelled with explicit outcome values (`Except`, or an
  outcome inductive paired with the post-state of the table).
* Numeric columns (SQLite `INTEGER`) are `Int`; values produced by pandas float
  division are modelled in `ℚ`, with `Option ℚ` where a division by zero would
  produce a non-finite float (NaN or infinity) in Python.
-/

/-- Row of the `customers` table as declared by `create_tables`
(`src/app.py` lines 126-134). -/
structure Customer where
  id : Int
  customer_name : String
  net_worth : Int
  risk_profile : String
  purchase_history : String
  deriving DecidableEq

/-- Row of the `products` table as declared by `create_tables`
(`src/app.py` lines 147-156). -/
structure Product where
  id : Int
  product_name : String
  agreement_terms : String
  referral_reward : Int
  risk_level : String
  min_investment : Int
  deriving DecidableEq

/-- Column names of the `referrals` table as declared by `create_tables`
(`src/app.py` lines 136-145). -/
def referralsColumns : List String :=
  ["id", "referrer_name", "referral_date", "customer_name", "product_referred",
   "referral_status", "referrer_points"]

/-- Column names of the `customers` table as declared by `create_tables`
(`src/app.py` lines 126-134). -/
def customersColumns : List String :=
  ["id", "customer_name", "net_worth", "risk_profile", "purchase_history"]

/-- The columns named by the `INSERT INTO referrals (...)` statement executed by
the referral form handler (`src/app.py` line 339). -/
def referralInsertColumns : List String :=
  ["user_id", "customer_name", "product_id", "status", "timestamp"]

/-- The columns named by the `INSERT INTO customers (...)` statement executed by
`add_customer` (`src/app.py` line 232). -/
def customerInsertColumns : List String :=
  ["name", "net_worth", "risk_profile"]

/-- SQLite accepts an `INSERT` statement exactly when every column it names
exists in the target table's schema; naming a missing column raises
`sqlite3.OperationalError` ("table ... has no column named ...") and no row is
inserted. -/
def insertColumnsOk (schema cols : List String) : Bool :=
  cols.all (fun c => schema.contains c)

/-- Model of the Python blank test `not s.strip()` used by the form handlers
(`src/app.py` lines 329 and 359): true iff `s` is empty or consists only of
whitespace characters. -/
def isBlank (s : String) : Bool :=
  s.toList.all (fun c => c.isWhitespace)

/-- Lookup in one of the name-to-id dictionaries built by `get_referrers_dict`
and `get_products_dict` (`src/app.py` lines 198-208); a missing key raises
`KeyError` in Python, modelled as `none`. -/
def dictLookup (d : List (String × Int)) (k : String) : Option Int :=
  (d.find? (fun e => e.1 == k)).map (fun e => e.2)

/-- Outcome of one submission of the referral form. -/
inductive SubmitOutcome where
  | validationError
  | success
  | raisedOperationalError
  | raisedKeyError
  deriving DecidableEq

/-- The row the referral form handler attempts to insert: one value per column
named by the `INSERT` at `src/app.py` line 339 (`user_id`, `customer_name`,
`product_id`, `status`, `timestamp`). -/
structure ReferralInsertRow where
  user_id : Int
  customer_name : String
  product_id : Int
  status : String
  timestamp : String
  deriving DecidableEq

/-- Model of the referral-form submit branch of `dashboard`
(`src/app.py` lines 328-345).  If the customer name is blank, `st.error` is
shown and the database is not touched.  Otherwise the referrer and product
names are resolved to ids through the cached dictionaries and the handler runs
`INSERT INTO referrals (user_id, customer_name, product_id, status, timestamp)`
with status `'Pending'`.  The insert succeeds only if those columns exist in
the `referrals` schema; otherwise SQLite raises `sqlite3.OperationalError`,
which `dashboard` does not catch, and the table is left unchanged. -/
def submitReferral (rdict pdict : List (String × Int))
    (referrerName customerName productName now : String)
    (referrals : List ReferralInsertRow) :
    List ReferralInsertRow × SubmitOutcome :=
  if isBlank customerName then
    (referrals, .validationError)
  else
    match dictLookup rdict referrerName, dictLookup pdict productName with
    | some rid, some pid =>
      if insertColumnsOk referralsColumns referralInsertColumns then
        (referrals ++ [⟨rid, customerName, pid, "Pending", now⟩], .success)
      else
        (referrals, .raisedOperationalError)
    | _, _ => (referrals, .raisedKeyError)

/-- The row `add_customer` attempts to insert: one value per column named by
the `INSERT` at `src/app.py` line 232 (`name`, `net_worth`, `risk_profile`). -/
structure CustomerInsertRow where
  name : String
  net_worth : Int
  risk_profile : String
  deriving DecidableEq

/-- Model of `add_customer` (`src/app.py` lines 227-239).  The function runs
`INSERT INTO customers (name, net_worth, risk_profile) VALUES (?, ?, ?)` inside
a `try` block; on `sqlite3.Error` it shows `st.error` and returns `False`.
The insert succeeds only if the named columns all exist in the `customers`
schema. -/
def add_customer (name : String) (netWorth : Int) (riskProfile : String)
    (customers : List CustomerInsertRow) :
    List CustomerInsertRow × Bool :=
  if insertColumnsOk customersColumns customerInsertColumns then
    (customers ++ [⟨name, netWorth, riskProfile⟩], true)
  else
    (customers, false)

/-- A Python exception escaping `run_read_sql`. -/
inductive PyExn where
  | unboundLocalError
  deriving DecidableEq

/-- The three ways the storage layer can behave during one call of
`run_read_sql`: the `sqlite3.connect` call raises `sqlite3.Error`, the
`pd.read_sql_query` call raises `sqlite3.Error`, or the query succeeds and
returns rows. -/
inductive ReadOutcome where
  | connectError
  | queryError (rows : List (List String))
  | success (rows : List (List String))
  deriving DecidableEq

/-- Model of `run_read_sql` (`src/app.py` lines 161-178), following its
`try/except/finally` control flow:

* `connectError`: `conn = sqlite3.connect(...)` raises before `conn` is bound.
  The `except sqlite3.Error` branch sets `df` to an empty DataFrame, but the
  `finally` branch then evaluates `if conn:` on the never-assigned local
  variable `conn`, raising `UnboundLocalError`, which propagates to the caller.
* `queryError`: `pd.read_sql_query` raises with `conn` bound; the `except`
  branch substitutes an empty DataFrame, `finally` closes the connection, and
  the empty result is returned.
* `success`: the rows read by the query are returned. -/
def run_read_sql : ReadOutcome → Except PyExn (List (List String))
  | .connectError => .error .unboundLocalError
  | .queryError _ => .ok []
  | .success rows => .ok rows

/-! ## Claims about the data-access layer and the forms -/

/-- C1: the spec claims that submitting a referral with a non-blank customer
name (after resolving the referrer and product names to ids) inserts a row
with status `'Pending'` into `referrals`.  On the code this is false: the
`INSERT` at `src/app.py` line 339 names columns `user_id`, `product_id`,
`status` and `timestamp` that do not exist in the `referrals` schema created
by `create_tables`, so SQLite raises `OperationalError` and no row is ever
inserted.  This theorem evaluates the handler on any non-blank submission with
resolvable names: the table is unchanged and the operational error is
raised. -/
theorem c1_submit_referral_raises_schema_error (rdict pdict : List (String × Int))
    (referrerName customerName productName now : String)
    (referrals : List ReferralInsertRow) (rid pid : Int)
    (hname : isBlank customerName = false)
    (hr : dictLookup rdict referrerName = some rid)
    (hp : dictLookup pdict productName = some pid) :
    submitReferral rdict pdict referrerName customerName productName now referrals
      = (referrals, .raisedOperationalError) := by
  have hcols : insertColumnsOk referralsColumns referralInsertColumns = false := by decide
  simp [submitReferral, hname, hr, hp, hcols]

/-- Witness for C1: a concrete non-blank submission on an empty `referrals`
table raises the operational error and inserts nothing. -/
theorem c1_witness :
    isBlank "Alice" = false ∧
      submitReferral [("John Smith", 1)] [("Savings Account", 2)]
        "John Smith" "Alice" "Savings Account" "2024-01-01" []
        = ([], .raisedOperationalError) :=
  ⟨by decide,
   c1_submit_referral_raises_schema_error _ _ _ _ _ _ _ 1 2 (by decide) (by decide) (by decide)⟩

/-- C7: the spec claims `run_read_sql` turns any storage error into an empty
result instead of propagating an exception.  That holds for query errors, but
when `sqlite3.connect` itself fails the local variable `conn` is never bound
and the `finally` block `if conn:` raises `UnboundLocalError`, which does
propagate to the caller.  This theorem evaluates both error paths of the
model. -/
theorem c7_run_read_sql_connect_error_propagates :
    run_read_sql .connectError = .error .unboundLocalError ∧
      run_read_sql (.queryError [["r"]]) = .ok [] :=
  ⟨rfl, rfl⟩

/-- C8: submitting the referral form with a blank (empty or whitespace-only)
customer name leaves the referrals table unchanged, performs no insert, and
surfaces the validation message.  Confirmed: the handler returns before
touching the database. -/
theorem c8_blank_customer_name_no_insert (rdict pdict : List (String × Int))
    (referrerName customerName productName now : String)
    (referrals : List ReferralInsertRow)
    (h : isBlank customerName = true) :
    submitReferral rdict pdict referrerName customerName productName now referrals
      = (referrals, .validationError) := by
  simp [submitReferral, h]

/-- Witness for C8: a whitespace-only customer name on a concrete table. -/
theorem c8_witness :
    isBlank "  " = true ∧
      submitReferral [("John Smith", 1)] [("Savings Account", 2)]
        "John Smith" "  " "Savings Account" "2024-01-01"
        [⟨1, "Bob", 2, "Pending", "t"⟩]
        = ([⟨1, "Bob", 2, "Pending", "t"⟩], .validationError) :=
  ⟨by decide,
   c8_blank_customer_name_no_insert _ _ _ _ _ _ _ (by decide)⟩

/-- C9: the spec claims `add_customer` inserts a row and returns `True` for
every non-empty name, net worth and risk profile.  On the code this is false
for every input: the `INSERT` at `src/app.py` line 232 names a column `name`
that does not exist in the `customers` schema (`customer_name`), so SQLite
raises `sqlite3.OperationalError`, the `except` branch reports the error, and
`add_customer` returns `False` with the table unchanged. -/
theorem c9_add_customer_always_fails (name : String) (netWorth : Int)
    (riskProfile : String) (customers : List CustomerInsertRow) :
    add_customer name netWorth riskProfile customers = (customers, false) := by
  have hcols : insertColumnsOk customersColumns customerInsertColumns = false := by decide
  simp [add_customer, hcols]

/-! ## The recommender: joint label encoding and normalization -/

/-- Model of a pandas float division of a column entry by the column maximum
(`src/app.py` lines 66 and 78).  When the maximum is zero the float result is
non-finite (`0/0` is NaN, `x/0` is signed infinity), modelled as `none`. -/
def pandasDiv (x m : ℚ) : Option ℚ :=
  if m = 0 then none else some (x / m)

/-- The value of `customers['net_worth'].max()` (`src/app.py` line 78); the
`getD 0` default is only reached on an empty table. -/
def maxNetWorth (cs : List Customer) : Int :=
  ((cs.map (fun c => c.net_worth)).max?).getD 0

/-- The value of `products['min_investment'].max()` (`src/app.py` line 66). -/
def maxMinInvestment (ps : List Product) : Int :=
  ((ps.map (fun p => p.min_investment)).max?).getD 0

/-- The class list of the jointly fitted `LabelEncoder`
(`src/app.py` lines 69-71): `le.fit` stores the sorted distinct values of the
concatenation of `customers['risk_profile']` and `products['risk_level']`. -/
def jointClasses (cs : List Customer) (ps : List Product) : List String :=
  List.insertionSort (fun a b => a ≤ b)
    ((cs.map (fun c => c.risk_profile) ++ ps.map (fun p => p.risk_level)).dedup)

/-- `LabelEncoder.transform` on one label: its position in the sorted class
list. -/
def leEncode (classes : List String) (x : String) : Nat :=
  classes.indexOf x

/-- A `customers` row after `get_similarity_matrix` has assigned the columns
`risk_profile_encoded` (line 74) and `net_worth_normalized` (line 78). -/
structure CustomerE extends Customer where
  risk_profile_encoded : Nat
  net_worth_normalized : Option ℚ
  deriving DecidableEq

/-- A `products` row after `get_similarity_matrix` has assigned the columns
`risk_level_encoded` (line 75) and `min_investment_normalized` (line 66). -/
structure ProductE extends Product where
  risk_level_encoded : Nat
  min_investment_normalized : Option ℚ
  deriving DecidableEq

/-- The customers table as mutated by `get_similarity_matrix`
(`src/app.py` lines 74 and 78): each row gains its jointly encoded risk code
and its net worth divided by the column maximum. -/
def customersExtended (cs : List Customer) (ps : List Product) : List CustomerE :=
  cs.map (fun c =>
    { toCustomer := c
      risk_profile_encoded := leEncode (jointClasses cs ps) c.risk_profile
      net_worth_normalized := pandasDiv (c.net_worth : ℚ) ((maxNetWorth cs : Int) : ℚ) })

/-- The products table as mutated by `get_similarity_matrix`
(`src/app.py` lines 66 and 75). -/
def productsExtended (cs : List Customer) (ps : List Product) : List ProductE :=
  ps.map (fun p =>
    { toProduct := p
      risk_level_encoded := leEncode (jointClasses cs ps) p.risk_level
      min_investment_normalized := pandasDiv (p.min_investment : ℚ) ((maxMinInvestment ps : Int) : ℚ) })

/-- The conditions under which `get_similarity_matrix` raises instead of
returning a matrix:

* the first, immediately overwritten `LabelEncoder` pass (lines 64-65) is fit
  on the customer column only, so `le.transform(products['risk_level'])`
  raises `ValueError` when some product risk level does not occur among the
  customers' risk profiles;
* a zero column maximum makes the normalized column non-finite (NaN or
  infinity), and `cosine_similarity` validates its input and raises
  `ValueError` on non-finite entries;
* an empty table makes `cosine_similarity` raise ("0 sample(s)"). -/
def simFails (cs : List Customer) (ps : List Product) : Bool :=
  cs.isEmpty || ps.isEmpty
    || ps.any (fun p => !((cs.map (fun c => c.risk_profile)).contains p.risk_level))
    || (maxNetWorth cs == 0) || (maxMinInvestment ps == 0)

/-! ## Claims about the encoding and the normalization -/

/-- C2: on any run of `get_similarity_matrix` that returns (the final encoding
at lines 69-75 is fit jointly on the union of both columns), a customer row
and a product row whose risk strings are equal receive equal integer codes. -/
theorem c2_joint_encoding_consistent (cs : List Customer) (ps : List Product)
    (_h : simFails cs ps = false)
    (ce : CustomerE) (hce : ce ∈ customersExtended cs ps)
    (pe : ProductE) (hpe : pe ∈ productsExtended cs ps)
    (hrisk : ce.risk_profile = pe.risk_level) :
    ce.risk_profile_encoded = pe.risk_level_encoded := by
  obtain ⟨c, _, rfl⟩ := List.mem_map.mp hce
  obtain ⟨p, _, rfl⟩ := List.mem_map.mp hpe
  simp only [leEncode] at *
  rw [hrisk]

/-- Witness for C2: two customers and one product, all with risk label "A";
the first customer's code equals the product's code. -/
theorem c2_witness :
    simFails [⟨1, "a", 100, "A", "h"⟩, ⟨2, "b", 50, "A", "h"⟩]
        [⟨1, "p", "t", 5, "A", 10⟩] = false ∧
      (⟨⟨1, "a", 100, "A", "h"⟩, 0, some 1⟩ : CustomerE)
        ∈ customersExtended [⟨1, "a", 100, "A", "h"⟩, ⟨2, "b", 50, "A", "h"⟩]
            [⟨1, "p", "t", 5, "A", 10⟩] ∧
      (⟨⟨1, "p", "t", 5, "A", 10⟩, 0, some 1⟩ : ProductE)
        ∈ productsExtended [⟨1, "a", 100, "A", "h"⟩, ⟨2, "b", 50, "A", "h"⟩]
            [⟨1, "p", "t", 5, "A", 10⟩] ∧
      (⟨⟨1, "a", 100, "A", "h"⟩, 0, some 1⟩ : CustomerE).risk_profile_encoded
        = (⟨⟨1, "p", "t", 5, "A", 10⟩, 0, some 1⟩ : ProductE).risk_level_encoded := by
  refine ⟨by decide, ?_, ?_, ?_⟩
  · simp [customersExtended, jointClasses, leEncode, pandasDiv, maxNetWorth]
  · simp [productsExtended, jointClasses, leEncode, pandasDiv, maxMinInvestment]
  · exact c2_joint_encoding_consistent
      [⟨1, "a", 100, "A", "h"⟩, ⟨2, "b", 50, "A", "h"⟩] [⟨1, "p", "t", 5, "A", 10⟩]
      (by decide) _
      (by simp [customersExtended, jointClasses, leEncode, pandasDiv, maxNetWorth]) _
      (by simp [productsExtended, jointClasses, leEncode, pandasDiv, maxMinInvestment]) rfl

/-- Helper: the maximum of a nonempty integer column is attained by some
entry. -/
theorem int_list_max_attained (xs : List Int) (hne : xs ≠ []) :
    ∃ x ∈ xs, x = xs.max?.getD 0 := by
  cases hmax : xs.max? with
  | none =>
      cases xs with
      | nil => exact absurd rfl hne
      | cons a l => simp [List.max?] at hmax
  | some m =>
      exact ⟨m, List.max?_mem (fun a b => max_choice a b) hmax, by simp [hmax]⟩

/-- C5 counterexample: the claim says the maximum-net-worth customer always
normalizes to exactly 1.0.  With a single customer of net worth 0 the
normalization step (`src/app.py` line 78) divides by a zero column maximum, so
pandas produces NaN (no rational value), not 1.0. -/
theorem c5_counterexample :
    (customersExtended [⟨1, "a", 0, "A", "h"⟩] [⟨1, "p", "t", 5, "A", 10⟩]).map
        (fun ce => ce.net_worth_normalized) = [none] ∧
      ¬ ∃ ce ∈ customersExtended [⟨1, "a", 0, "A", "h"⟩] [⟨1, "p", "t", 5, "A", 10⟩],
          ce.net_worth_normalized = some 1 := by
  constructor
  · simp [customersExtended, pandasDiv, maxNetWorth, List.max?]
  · simp [customersExtended, pandasDiv, maxNetWorth, List.max?, jointClasses, leEncode]

/-- C5 amended: on any run of `get_similarity_matrix` that returns a matrix
(so in particular both column maxima are nonzero), every customer attaining
the maximum net worth has normalized net worth exactly 1, such a customer
exists, and the same holds for products and the minimum investment. -/
theorem c5_max_normalizes_to_one (cs : List Customer) (ps : List Product)
    (h : simFails cs ps = false) :
    (∀ ce ∈ customersExtended cs ps, ce.net_worth = maxNetWorth cs →
        ce.net_worth_normalized = some 1) ∧
      (∃ ce ∈ customersExtended cs ps, ce.net_worth = maxNetWorth cs) ∧
      (∀ pe ∈ productsExtended cs ps, pe.min_investment = maxMinInvestment ps →
          pe.min_investment_normalized = some 1) ∧
      (∃ pe ∈ productsExtended cs ps, pe.min_investment = maxMinInvestment ps) := by
  have h' := h
  simp only [simFails, Bool.or_eq_false_iff, List.isEmpty_eq_false,
    beq_eq_false_iff_ne, ne_eq] at h'
  obtain ⟨⟨⟨⟨hcs, hps⟩, _⟩, hmc⟩, hmp⟩ := h'
  have hmcq : ((maxNetWorth cs : Int) : ℚ) ≠ 0 := by exact_mod_cast hmc
  have hmpq : ((maxMinInvestment ps : Int) : ℚ) ≠ 0 := by exact_mod_cast hmp
  refine ⟨?_, ?_, ?_, ?_⟩
  · rintro ce hce hnw
    obtain ⟨c, hc, rfl⟩ := List.mem_map.mp hce
    simp only [CustomerE.mk.injEq] at hnw ⊢
    show pandasDiv ((c.net_worth : Int) : ℚ) ((maxNetWorth cs : Int) : ℚ) = some 1
    have : c.net_worth = maxNetWorth cs := hnw
    rw [pandasDiv, if_neg hmcq, this]
    exact congrArg some (div_self hmcq)
  · obtain ⟨x, hx, hxeq⟩ :=
      int_list_max_attained (cs.map (fun c => c.net_worth)) (by simpa using hcs)
    obtain ⟨c, hc, rfl⟩ := List.mem_map.mp hx
    exact ⟨_, List.mem_map_of_mem _ hc, by simpa [maxNetWorth] using hxeq⟩
  · rintro pe hpe hmi
    obtain ⟨p, hp, rfl⟩ := List.mem_map.mp hpe
    show pandasDiv ((p.min_investment : Int) : ℚ) ((maxMinInvestment ps : Int) : ℚ) = some 1
    have : p.min_investment = maxMinInvestment ps := hmi
    rw [pandasDiv, if_neg hmpq, this]
    exact congrArg some (div_self hmpq)
  · obtain ⟨x, hx, hxeq⟩ :=
      int_list_max_attained (ps.map (fun p => p.min_investment)) (by simpa using hps)
    obtain ⟨p, hp, rfl⟩ := List.mem_map.mp hx
    exact ⟨_, List.mem_map_of_mem _ hp, by simpa [maxMinInvestment] using hxeq⟩

/-- Witness for C5 on concrete tables with nonzero maxima. -/
theorem c5_witness :
    simFails [⟨1, "a", 100, "A", "h"⟩, ⟨2, "b", 40, "A", "h"⟩]
        [⟨1, "p", "t", 5, "A", 10⟩] = false ∧
      ((∀ ce ∈ customersExtended [⟨1, "a", 100, "A", "h"⟩, ⟨2, "b", 40, "A", "h"⟩]
            [⟨1, "p", "t", 5, "A", 10⟩],
          ce.net_worth = maxNetWorth [⟨1, "a", 100, "A", "h"⟩, ⟨2, "b", 40, "A", "h"⟩] →
          ce.net_worth_normalized = some 1) ∧
        (∃ ce ∈ customersExtended [⟨1, "a", 100, "A", "h"⟩, ⟨2, "b", 40, "A", "h"⟩]
            [⟨1, "p", "t", 5, "A", 10⟩],
          ce.net_worth = maxNetWorth [⟨1, "a", 100, "A", "h"⟩, ⟨2, "b", 40, "A", "h"⟩]) ∧
        (∀ pe ∈ productsExtended [⟨1, "a", 100, "A", "h"⟩, ⟨2, "b", 40, "A", "h"⟩]
            [⟨1, "p", "t", 5, "A", 10⟩],
          pe.min_investment = maxMinInvestment [⟨1, "p", "t", 5, "A", 10⟩] →
          pe.min_investment_normalized = some 1) ∧
        (∃ pe ∈ productsExtended [⟨1, "a", 100, "A", "h"⟩, ⟨2, "b", 40, "A", "h"⟩]
            [⟨1, "p", "t", 5, "A", 10⟩],
          pe.min_investment = maxMinInvestment [⟨1, "p", "t", 5, "A", 10⟩])) :=
  ⟨by decide, c5_max_normalizes_to_one _ _ (by decide)⟩

/-! ## The recommender: cosine similarity -/

/-- Feature vector of an extended customer row, in the column order
`['net_worth_normalized', 'risk_profile_encoded']` (`src/app.py` line 82).
On every run that reaches `cosine_similarity` the normalized entry is a finite
value (`some`); `getD 0` merely extracts it. -/
def featC (ce : CustomerE) : ℚ × ℚ :=
  (ce.net_worth_normalized.getD 0, (ce.risk_profile_encoded : ℚ))

/-- Feature vector of an extended product row, in the column order
`['min_investment_normalized', 'risk_level_encoded']` (`src/app.py` line 84). -/
def featP (pe : ProductE) : ℚ × ℚ :=
  (pe.min_investment_normalized.getD 0, (pe.risk_level_encoded : ℚ))

/-- The euclidean norm used by sklearn `normalize` inside `cosine_similarity`,
which replaces a zero norm by 1 so that zero vectors map to zero rows instead
of producing a division by zero. -/
noncomputable def safeNorm (u : ℚ × ℚ) : ℝ :=
  if u.1 = 0 ∧ u.2 = 0 then 1 else Real.sqrt (((u.1 : ℚ) : ℝ) ^ 2 + ((u.2 : ℚ) : ℝ) ^ 2)

/-- `sklearn.metrics.pairwise.cosine_similarity` on one pair of vectors:
`dot(u, v) / (‖u‖ * ‖v‖)` with zero norms replaced by 1. -/
noncomputable def cosineSim (u v : ℚ × ℚ) : ℝ :=
  ((u.1 * v.1 + u.2 * v.2 : ℚ) : ℝ) / (safeNorm u * safeNorm v)

/-- The dense similarity matrix of `src/app.py` line 88: one row per customer,
one column per product. -/
noncomputable def simMatrix (cs : List Customer) (ps : List Product) : List (List ℝ) :=
  (customersExtended cs ps).map (fun ce =>
    (productsExtended cs ps).map (fun pe => cosineSim (featC ce) (featP pe)))

/-- Model of `get_similarity_matrix` (`src/app.py` lines 60-90).  On the
conditions of `simFails` the Python function raises and returns nothing;
otherwise it returns the similarity matrix, having also mutated the two
argument tables in place by adding the encoded and normalized columns.  The
mutated tables are part of the result to make that side effect explicit. -/
noncomputable def get_similarity_matrix (cs : List Customer) (ps : List Product) :
    Option (List CustomerE × List ProductE × List (List ℝ)) :=
  if simFails cs ps then none
  else some (customersExtended cs ps, productsExtended cs ps, simMatrix cs ps)

/-- Helper: the absolute value of any cosine similarity is at most 1
(Cauchy-Schwarz in dimension 2, plus the zero-norm convention). -/
theorem abs_cosineSim_le_one (u v : ℚ × ℚ) : |cosineSim u v| ≤ 1 := by
  have key : ∀ w : ℚ × ℚ, ¬(w.1 = 0 ∧ w.2 = 0) →
      (0 : ℝ) < ((w.1 : ℚ) : ℝ) ^ 2 + ((w.2 : ℚ) : ℝ) ^ 2 := by
    intro w hw
    rcases not_and_or.mp hw with hne | hne
    · have h1 : ((w.1 : ℚ) : ℝ) ≠ 0 := by exact_mod_cast hne
      nlinarith [sq_nonneg ((w.2 : ℚ) : ℝ), sq_abs ((w.1 : ℚ) : ℝ),
        abs_pos.mpr h1, sq_nonneg (|((w.1 : ℚ) : ℝ)| - 1)]
    · have h2 : ((w.2 : ℚ) : ℝ) ≠ 0 := by exact_mod_cast hne
      nlinarith [sq_nonneg ((w.1 : ℚ) : ℝ), sq_abs ((w.2 : ℚ) : ℝ),
        abs_pos.mpr h2, sq_nonneg (|((w.2 : ℚ) : ℝ)| - 1)]
  by_cases hu : u.1 = 0 ∧ u.2 = 0
  · have hz : (u.1 * v.1 + u.2 * v.2 : ℚ) = 0 := by rw [hu.1, hu.2]; ring
    simp [cosineSim, hz]
  · by_cases hv : v.1 = 0 ∧ v.2 = 0
    · have hz : (u.1 * v.1 + u.2 * v.2 : ℚ) = 0 := by rw [hv.1, hv.2]; ring
      simp [cosineSim, hz]
    · have ha := key u hu
      have hb := key v hv
      have hsa : (0 : ℝ) < Real.sqrt (((u.1 : ℚ) : ℝ) ^ 2 + ((u.2 : ℚ) : ℝ) ^ 2) :=
        Real.sqrt_pos.mpr ha
      have hsb : (0 : ℝ) < Real.sqrt (((v.1 : ℚ) : ℝ) ^ 2 + ((v.2 : ℚ) : ℝ) ^ 2) :=
        Real.sqrt_pos.mpr hb
      have hdot : ((u.1 * v.1 + u.2 * v.2 : ℚ) : ℝ) ^ 2 ≤
          (((u.1 : ℚ) : ℝ) ^ 2 + ((u.2 : ℚ) : ℝ) ^ 2) *
            (((v.1 : ℚ) : ℝ) ^ 2 + ((v.2 : ℚ) : ℝ) ^ 2) := by
        push_cast
        nlinarith [sq_nonneg (((u.1 : ℚ) : ℝ) * ((v.2 : ℚ) : ℝ) - ((u.2 : ℚ) : ℝ) * ((v.1 : ℚ) : ℝ))]
      simp only [cosineSim, safeNorm, if_neg hu, if_neg hv]
      rw [abs_div, abs_of_nonneg (le_of_lt (mul_pos hsa hsb)), div_le_one (mul_pos hsa hsb)]
      calc |((u.1 * v.1 + u.2 * v.2 : ℚ) : ℝ)|
          = Real.sqrt (((u.1 * v.1 + u.2 * v.2 : ℚ) : ℝ) ^ 2) := (Real.sqrt_sq_eq_abs _).symm
        _ ≤ Real.sqrt ((((u.1 : ℚ) : ℝ) ^ 2 + ((u.2 : ℚ) : ℝ) ^ 2) *
              (((v.1 : ℚ) : ℝ) ^ 2 + ((v.2 : ℚ) : ℝ) ^ 2)) := Real.sqrt_le_sqrt hdot
        _ = Real.sqrt (((u.1 : ℚ) : ℝ) ^ 2 + ((u.2 : ℚ) : ℝ) ^ 2) *
              Real.sqrt (((v.1 : ℚ) : ℝ) ^ 2 + ((v.2 : ℚ) : ℝ) ^ 2) :=
            Real.sqrt_mul (le_of_lt ha) _

/-! ## Claims about the similarity matrix -/

/-- C3 counterexample: the claim says every pair of nonempty tables yields a
matrix.  With one customer of risk profile "A" and one product of risk level
"B", the first `LabelEncoder` pass (`src/app.py` lines 64-65, fit on the
customer column only) raises `ValueError` on the unseen label, so
`get_similarity_matrix` returns no matrix at all. -/
theorem c3_counterexample :
    ([⟨1, "a", 100, "A", "h"⟩] : List Customer) ≠ [] ∧
      ([⟨1, "p", "t", 5, "B", 10⟩] : List Product) ≠ [] ∧
      get_similarity_matrix [⟨1, "a", 100, "A", "h"⟩] [⟨1, "p", "t", 5, "B", 10⟩] = none := by
  refine ⟨by decide, by decide, ?_⟩
  have hf : simFails [⟨1, "a", 100, "A", "h"⟩] [⟨1, "p", "t", 5, "B", 10⟩] = true := by decide
  simp [get_similarity_matrix, hf]

/-- C3 amended: for every pair of tables on which `get_similarity_matrix`
returns (nonempty, all product risk levels occur among customer risk profiles,
nonzero column maxima), the returned matrix has exactly one row per customer,
exactly one column per product, and every entry lies in the interval [-1, 1]. -/
theorem c3_matrix_shape_and_bounds (cs : List Customer) (ps : List Product)
    (h : simFails cs ps = false) :
    get_similarity_matrix cs ps
        = some (customersExtended cs ps, productsExtended cs ps, simMatrix cs ps) ∧
      (simMatrix cs ps).length = cs.length ∧
      (∀ row ∈ simMatrix cs ps, row.length = ps.length) ∧
      (∀ row ∈ simMatrix cs ps, ∀ x ∈ row, -1 ≤ x ∧ x ≤ 1) := by
  refine ⟨by simp [get_similarity_matrix, h], ?_, ?_, ?_⟩
  · simp [simMatrix, customersExtended]
  · intro row hrow
    obtain ⟨ce, _, rfl⟩ := List.mem_map.mp hrow
    simp [productsExtended]
  · intro row hrow x hx
    obtain ⟨ce, _, rfl⟩ := List.mem_map.mp hrow
    obtain ⟨pe, _, rfl⟩ := List.mem_map.mp hx
    exact abs_le.mp (abs_cosineSim_le_one (featC ce) (featP pe))

/-- Witness for C3 on concrete one-row tables. -/
theorem c3_witness :
    simFails [⟨1, "a", 200, "A", "h"⟩] [⟨1, "p", "t", 5, "A", 20⟩] = false ∧
      (get_similarity_matrix [⟨1, "a", 200, "A", "h"⟩] [⟨1, "p", "t", 5, "A", 20⟩]
          = some (customersExtended [⟨1, "a", 200, "A", "h"⟩] [⟨1, "p", "t", 5, "A", 20⟩],
              productsExtended [⟨1, "a", 200, "A", "h"⟩] [⟨1, "p", "t", 5, "A", 20⟩],
              simMatrix [⟨1, "a", 200, "A", "h"⟩] [⟨1, "p", "t", 5, "A", 20⟩]) ∧
        (simMatrix [⟨1, "a", 200, "A", "h"⟩] [⟨1, "p", "t", 5, "A", 20⟩]).length
          = ([⟨1, "a", 200, "A", "h"⟩] : List Customer).length ∧
        (∀ row ∈ simMatrix [⟨1, "a", 200, "A", "h"⟩] [⟨1, "p", "t", 5, "A", 20⟩],
          row.length = ([⟨1, "p", "t", 5, "A", 20⟩] : List Product).length) ∧
        (∀ row ∈ simMatrix [⟨1, "a", 200, "A", "h"⟩] [⟨1, "p", "t", 5, "A", 20⟩],
          ∀ x ∈ row, -1 ≤ x ∧ x ≤ 1)) :=
  ⟨by decide, c3_matrix_shape_and_bounds _ _ (by decide)⟩

/-- C6: when a customer's feature vector (or a product's) is the zero vector,
the corresponding similarity values are 0 and the computation still returns a
matrix: sklearn replaces the zero norm by 1 (`safeNorm`), so no
division-by-zero failure occurs. -/
theorem c6_zero_vector_similarity_zero (cs : List Customer) (ps : List Product)
    (h : simFails cs ps = false) :
    get_similarity_matrix cs ps
        = some (customersExtended cs ps, productsExtended cs ps, simMatrix cs ps) ∧
      (∀ ce ∈ customersExtended cs ps, featC ce = (0, 0) →
        ∀ pe ∈ productsExtended cs ps, cosineSim (featC ce) (featP pe) = 0) ∧
      (∀ pe ∈ productsExtended cs ps, featP pe = (0, 0) →
        ∀ ce ∈ customersExtended cs ps, cosineSim (featC ce) (featP pe) = 0) ∧
      (∀ ce ∈ customersExtended cs ps,
        ((productsExtended cs ps).map (fun pe => cosineSim (featC ce) (featP pe)))
          ∈ simMatrix cs ps) := by
  refine ⟨by simp [get_similarity_matrix, h], ?_, ?_, ?_⟩
  · intro ce _ hz pe _
    rw [hz]
    simp [cosineSim]
  · intro pe _ hz ce _
    rw [hz]
    simp [cosineSim]
  · intro ce hce
    exact List.mem_map_of_mem _ hce

/-- Witness for C6: a customer with net worth 0 and risk code 0 (zero feature
vector) receives similarity 0 against a concrete product. -/
theorem c6_witness :
    simFails [⟨1, "a", 0, "A", "h"⟩, ⟨2, "b", 100, "A", "h"⟩]
        [⟨1, "p", "t", 5, "A", 10⟩] = false ∧
      (⟨⟨1, "a", 0, "A", "h"⟩, 0, some 0⟩ : CustomerE)
        ∈ customersExtended [⟨1, "a", 0, "A", "h"⟩, ⟨2, "b", 100, "A", "h"⟩]
            [⟨1, "p", "t", 5, "A", 10⟩] ∧
      featC ⟨⟨1, "a", 0, "A", "h"⟩, 0, some 0⟩ = (0, 0) ∧
      (⟨⟨1, "p", "t", 5, "A", 10⟩, 0, some 1⟩ : ProductE)
        ∈ productsExtended [⟨1, "a", 0, "A", "h"⟩, ⟨2, "b", 100, "A", "h"⟩]
            [⟨1, "p", "t", 5, "A", 10⟩] ∧
      cosineSim (featC ⟨⟨1, "a", 0, "A", "h"⟩, 0, some 0⟩)
          (featP ⟨⟨1, "p", "t", 5, "A", 10⟩, 0, some 1⟩) = 0 := by
  refine ⟨by decide, ?_, by simp [featC], ?_, ?_⟩
  · simp [customersExtended, jointClasses, leEncode, pandasDiv, maxNetWorth, List.max?]
  · simp [productsExtended, jointClasses, leEncode, pandasDiv, maxMinInvestment, List.max?]
  · exact (c6_zero_vector_similarity_zero
        [⟨1, "a", 0, "A", "h"⟩, ⟨2, "b", 100, "A", "h"⟩] [⟨1, "p", "t", 5, "A", 10⟩]
        (by decide)).2.1 _
      (by simp [customersExtended, jointClasses, leEncode, pandasDiv, maxNetWorth, List.max?])
      (by simp [featC]) _
      (by simp [productsExtended, jointClasses, leEncode, pandasDiv, maxMinInvestment, List.max?])

/-- C10: `get_similarity_matrix` mutates the tables passed to it, adding the
columns `risk_profile_encoded` and `net_worth_normalized` to the customer
table and `risk_level_encoded` and `min_investment_normalized` to the product
table (the mutation is modelled by the updated tables being part of the
result).  Dropping the added columns recovers exactly the caller's original
rows. -/
theorem c10_tables_mutated (cs : List Customer) (ps : List Product)
    (h : simFails cs ps = false) :
    get_similarity_matrix cs ps
        = some (customersExtended cs ps, productsExtended cs ps, simMatrix cs ps) ∧
      (customersExtended cs ps).map (fun ce => ce.toCustomer) = cs ∧
      (productsExtended cs ps).map (fun pe => pe.toProduct) = ps := by
  refine ⟨by simp [get_similarity_matrix, h], ?_, ?_⟩
  · simp only [customersExtended, List.map_map]
    exact List.map_id cs
  · simp only [productsExtended, List.map_map]
    exact List.map_id ps

/-- Witness for C10 on concrete one-row tables. -/
theorem c10_witness :
    simFails [⟨7, "c", 300, "A", "h"⟩] [⟨8, "q", "t", 9, "A", 30⟩] = false ∧
      (get_similarity_matrix [⟨7, "c", 300, "A", "h"⟩] [⟨8, "q", "t", 9, "A", 30⟩]
          = some (customersExtended [⟨7, "c", 300, "A", "h"⟩] [⟨8, "q", "t", 9, "A", 30⟩],
              productsExtended [⟨7, "c", 300, "A", "h"⟩] [⟨8, "q", "t", 9, "A", 30⟩],
              simMatrix [⟨7, "c", 300, "A", "h"⟩] [⟨8, "q", "t", 9, "A", 30⟩]) ∧
        (customersExtended [⟨7, "c", 300, "A", "h"⟩] [⟨8, "q", "t", 9, "A", 30⟩]).map
            (fun ce => ce.toCustomer) = [⟨7, "c", 300, "A", "h"⟩] ∧
        (productsExtended [⟨7, "c", 300, "A", "h"⟩] [⟨8, "q", "t", 9, "A", 30⟩]).map
            (fun pe => pe.toProduct) = [⟨8, "q", "t", 9, "A", 30⟩]) :=
  ⟨by decide, c10_tables_mutated _ _ (by decide)⟩

/-! ## The recommender: top-N selection -/

/-- Default row for the total indexing function `List.getD`; the argsort
indices are always within the product table, so it is never returned. -/
def dummyProduct : Product :=
  ⟨0, "", "", 0, "", 0⟩

/-- numpy `argsort` on a row of scores (`src/app.py` line 98): the positions
`0, ..., n-1` ordered so that the scores are ascending.  numpy's default
quicksort is unstable but deterministic; the claims depend only on the order
of the scores, not on tie-breaking. -/
noncomputable def argsortAsc (scores : List ℝ) : List Nat :=
  List.insertionSort (fun i j => scores.getD i 0 ≤ scores.getD j 0)
    (List.range scores.length)

/-- numpy slice `a[-k:]` on a list of positions: the last `k` elements, except
that `k = 0` (since `-0 == 0` in Python) yields the whole array. -/
def takeLastNp (l : List Nat) (k : Nat) : List Nat :=
  if k = 0 then l else l.drop (l.length - k)

/-- The product positions selected by `get_recommendations`
(`src/app.py` line 98): `similarity_scores.argsort()[-top_n:][::-1]`.
The result is `none` when the customer id does not occur in the table (the
`.index[0]` lookup at line 96 raises `IndexError`) or when
`get_similarity_matrix` raises. -/
noncomputable def recommendationIndices (cs : List Customer) (ps : List Product)
    (customer_id : Int) (top_n : Nat) : Option (List Nat) :=
  match cs.findIdx? (fun c => c.id == customer_id) with
  | none => none
  | some idx =>
    if simFails cs ps then none
    else some ((takeLastNp (argsortAsc ((simMatrix cs ps).getD idx [])) top_n).reverse)

/-- Model of `get_recommendations` (`src/app.py` lines 92-100): look up the
row position of the requested customer, take that row of the similarity
matrix, pick the `top_n` highest-scoring product positions in descending
order, and return those product rows (`products.iloc[product_indices]`). -/
noncomputable def get_recommendations (cs : List Customer) (ps : List Product)
    (customer_id : Int) (top_n : Nat) : Option (List Product) :=
  (recommendationIndices cs ps customer_id top_n).map
    (fun inds => inds.map (fun i => ps.getD i dummyProduct))

/-- Helper: the numpy slice `[-k:]` never lengthens the list, and returns the
whole list when `k` is at least the list length. -/
theorem takeLastNp_length (l : List Nat) (k : Nat) :
    (takeLastNp l k).length ≤ l.length ∧
      (l.length ≤ k → (takeLastNp l k).length = l.length) := by
  unfold takeLastNp
  by_cases hk : k = 0
  · simp [hk]
  · simp [hk]
    omega

/-- Helper: `argsortAsc` sorts the positions by ascending score. -/
theorem argsortAsc_sorted (scores : List ℝ) :
    List.Sorted (fun i j => scores.getD i 0 ≤ scores.getD j 0) (argsortAsc scores) := by
  haveI : IsTotal Nat (fun i j => scores.getD i 0 ≤ scores.getD j 0) :=
    ⟨fun i j => le_total _ _⟩
  haveI : IsTrans Nat (fun i j => scores.getD i 0 ≤ scores.getD j 0) :=
    ⟨fun _ _ _ hab hbc => le_trans hab hbc⟩
  exact List.sorted_insertionSort _ _

/-- Helper: `takeLastNp l k` is a sublist of `l`. -/
theorem takeLastNp_sublist (l : List Nat) (k : Nat) : (takeLastNp l k).Sublist l := by
  unfold takeLastNp
  by_cases hk : k = 0
  · simp [hk]
  · simp [hk, List.drop_sublist]

/-- C4 counterexample: the claim promises a result "without erroring" for
every customer present in the table.  With the customer present but a product
risk level unseen among the customer risk profiles, `get_similarity_matrix`
raises inside `get_recommendations`, and no products are returned. -/
theorem c4_counterexample :
    ([⟨1, "a", 100, "A", "h"⟩] : List Customer).findIdx? (fun c => c.id == 1) = some 0 ∧
      get_recommendations [⟨1, "a", 100, "A", "h"⟩] [⟨2, "p", "t", 5, "B", 10⟩] 1 2 = none := by
  have hfind : ([⟨1, "a", 100, "A", "h"⟩] : List Customer).findIdx? (fun c => c.id == 1)
      = some 0 := by decide
  have hf : simFails [⟨1, "a", 100, "A", "h"⟩] [⟨2, "p", "t", 5, "B", 10⟩] = true := by decide
  exact ⟨hfind, by simp [get_recommendations, recommendationIndices, hfind, hf]⟩

/-- C4 amended: for every customer present in the table and every `top_n`, on
every run where `get_similarity_matrix` returns, `get_recommendations` returns
at most as many products as the product table has, returns all of them when
`top_n` is at least the table size, and the selected positions are in
non-increasing order of similarity score. -/
theorem c4_recommendations_bounded_sorted (cs : List Customer) (ps : List Product)
    (customer_id : Int) (top_n : Nat) (idx : Nat)
    (hfind : cs.findIdx? (fun c => c.id == customer_id) = some idx)
    (h : simFails cs ps = false) :
    ∃ inds : List Nat,
      recommendationIndices cs ps customer_id top_n = some inds ∧
        get_recommendations cs ps customer_id top_n
          = some (inds.map (fun i => ps.getD i dummyProduct)) ∧
        inds.length ≤ ps.length ∧
        (ps.length ≤ top_n → inds.length = ps.length) ∧
        inds.Chain' (fun i j => ((simMatrix cs ps).getD idx []).getD j 0
          ≤ ((simMatrix cs ps).getD idx []).getD i 0) := by
  have hidx : idx < cs.length :=
    ((List.findIdx?_eq_some_iff_findIdx_eq).mp hfind).1
  have hmlen : (simMatrix cs ps).length = cs.length := by
    simp [simMatrix, customersExtended]
  have hrow : ((simMatrix cs ps).getD idx []).length = ps.length := by
    rw [List.getD_eq_getElem _ _ (by rw [hmlen]; exact hidx)]
    simp only [simMatrix]
    rw [List.getElem_map]
    simp [productsExtended]
  refine ⟨(takeLastNp (argsortAsc ((simMatrix cs ps).getD idx [])) top_n).reverse,
    ?_, ?_, ?_, ?_, ?_⟩
  · simp [recommendationIndices, hfind, h]
  · simp [get_recommendations, recommendationIndices, hfind, h]
  · rw [List.length_reverse]
    have hargs : (argsortAsc ((simMatrix cs ps).getD idx [])).length = ps.length := by
      rw [argsortAsc, List.length_insertionSort, List.length_range, hrow]
    have h1 := (takeLastNp_length (argsortAsc ((simMatrix cs ps).getD idx [])) top_n).1
    rw [hargs] at h1
    exact h1
  · intro hle
    rw [List.length_reverse]
    have hargs : (argsortAsc ((simMatrix cs ps).getD idx [])).length = ps.length := by
      rw [argsortAsc, List.length_insertionSort, List.length_range, hrow]
    have h2 := (takeLastNp_length (argsortAsc ((simMatrix cs ps).getD idx [])) top_n).2
    rw [hargs] at h2
    exact h2 hle
  · apply List.Pairwise.chain'
    rw [List.pairwise_reverse]
    exact List.Pairwise.sublist
      (takeLastNp_sublist (argsortAsc ((simMatrix cs ps).getD idx [])) top_n)
      (argsortAsc_sorted ((simMatrix cs ps).getD idx []))

/-- Witness for C4 on concrete tables: one customer, two products, `top_n`
larger than the table. -/
theorem c4_witness :
    ([⟨3, "a", 100, "A", "h"⟩] : List Customer).findIdx? (fun c => c.id == 3) = some 0 ∧
      simFails [⟨3, "a", 100, "A", "h"⟩]
        [⟨1, "p", "t", 5, "A", 10⟩, ⟨2, "q", "u", 6, "A", 20⟩] = false ∧
      ∃ inds : List Nat,
        recommendationIndices [⟨3, "a", 100, "A", "h"⟩]
            [⟨1, "p", "t", 5, "A", 10⟩, ⟨2, "q", "u", 6, "A", 20⟩] 3 5 = some inds ∧
          get_recommendations [⟨3, "a", 100, "A", "h"⟩]
              [⟨1, "p", "t", 5, "A", 10⟩, ⟨2, "q", "u", 6, "A", 20⟩] 3 5
            = some (inds.map (fun i =>
                ([⟨1, "p", "t", 5, "A", 10⟩, ⟨2, "q", "u", 6, "A", 20⟩] : List Product).getD
                  i dummyProduct)) ∧
          inds.length ≤ ([⟨1, "p", "t", 5, "A", 10⟩, ⟨2, "q", "u", 6, "A", 20⟩] :
              List Product).length ∧
          (([⟨1, "p", "t", 5, "A", 10⟩, ⟨2, "q", "u", 6, "A", 20⟩] :
              List Product).length ≤ 5 → inds.length
            = ([⟨1, "p", "t", 5, "A", 10⟩, ⟨2, "q", "u", 6, "A", 20⟩] : List Product).length) ∧
          inds.Chain' (fun i j =>
            ((simMatrix [⟨3, "a", 100, "A", "h"⟩]
                [⟨1, "p", "t", 5, "A", 10⟩, ⟨2, "q", "u", 6, "A", 20⟩]).getD 0 []).getD j 0
              ≤ ((simMatrix [⟨3, "a", 100, "A", "h"⟩]
                  [⟨1, "p", "t", 5, "A", 10⟩, ⟨2, "q", "u", 6, "A", 20⟩]).getD 0 []).getD i 0) :=
  ⟨by decide, by decide,
   c4_recommendations_bounded_sorted _ _ 3 5 0 (by decide) (by decide)⟩
